import Mathlib

/-!
Verification development for the Dyad distribution (Vibeathon) proxy-routing
and feature-visibility layer.

The TypeScript source is shallowly embedded in Lean:
* JavaScript objects with optional fields become structures with `Option`
  fields (`none` = the field is absent / `undefined`).
* JavaScript truthiness tests (`if (x)`, `x || y`, `!x`) are modelled
  explicitly: `undefined` and the empty string `""` are falsy for strings,
  `undefined` and `0` are falsy for numbers.
* Functions performing `fetch` calls are parameterised over the HTTP
  response they would receive; functions reading the wall clock or a random
  source are parameterised over those values.
* `readSettings`/`writeSettings` become explicit state passing: a function
  that reads and writes settings takes the settings it would read and
  returns the settings the store holds afterwards.
-/

/-- JavaScript string truthiness for `Option String` values:
`undefined` and the empty string are falsy. -/
def strTruthy : Option String → Bool
  | none => false
  | some s => s ≠ ""

/-- JavaScript number truthiness for `Option ℚ` values:
`undefined` and `0` are falsy. -/
def numTruthy : Option ℚ → Bool
  | none => false
  | some q => q ≠ 0

/-- `SecretSchema` from `src/lib/schemas.ts`: an encrypted secret value. -/
structure SecretSchema where
  value : String
  encryptionType : String
  deriving Repr, DecidableEq

/-- `proxySettings` object of the distribution settings schema
(plan `2025-09-23-vibeathon-proxy-routing.md`, Phase 1: every field
`.optional()`). -/
structure ProxySettings where
  enabled : Option Bool
  baseUrl : Option String
  fallbackApiKeys : Option (List (String × SecretSchema))
  fallbackKeysExpiration : Option String
  retryCount : Option Nat
  lastFailure : Option String
  useFallback : Option Bool
  deriving Repr, DecidableEq

/-- `distributionMode` object of `UserSettingsSchema`
(research `2025-09-23-distribution-feature-flags.md` plus the Phase 1
extension adding `vibeathonApiKey` and `proxySettings`). -/
structure DistributionMode where
  hideCommercialFeatures : Option Bool
  hideProButtons : Option Bool
  hideExternalIntegrations : Option Bool
  hideNavigation : Option (List String)
  vibeathonApiKey : Option SecretSchema
  proxySettings : Option ProxySettings
  deriving Repr, DecidableEq

/-- The slice of `UserSettings` relevant to the distribution layer, plus two
unrelated fields used to state frame properties. -/
structure UserSettings where
  distributionMode : Option DistributionMode
  selectedChatMode : String
  telemetryConsent : String
  deriving Repr, DecidableEq

/-- `DISTRIBUTION_FEATURE_KEYS` of `distribution_utils.ts` (the extended,
Phase 1 version found in the settings module source): the enumerated
feature-key set. -/
def DISTRIBUTION_FEATURE_KEYS : List String :=
  ["pro-banner", "pro-buttons", "hub-nav", "library-nav", "import-app",
   "more-ideas", "model-providers", "model-picker", "provider-setup"]

/-- `shouldHideFeature(settings, featureKey)` from `src/lib/schemas.ts`, as
given in research `2025-09-23-distribution-feature-flags.md` with the
Phase 1 cases for `model-providers` / `model-picker` / `provider-setup`
(plan `2025-09-23-vibeathon-proxy-routing.md`).  `!settings?.distributionMode`
short-circuits to `false`; optional booleans and `hideNavigation?.includes`
read falsy when absent. -/
def shouldHideFeature (settings : UserSettings) (featureKey : String) : Bool :=
  match settings.distributionMode with
  | none => false
  | some config =>
    if featureKey = "pro-banner" then
      config.hideCommercialFeatures.getD false || config.hideProButtons.getD false
    else if featureKey = "pro-buttons" then
      config.hideProButtons.getD false
    else if featureKey = "hub-nav" then
      (config.hideNavigation.getD []).contains "hub"
    else if featureKey = "library-nav" then
      (config.hideNavigation.getD []).contains "library"
    else if featureKey = "import-app" then
      config.hideExternalIntegrations.getD false
    else if featureKey = "more-ideas" then
      config.hideCommercialFeatures.getD false
    else if featureKey = "model-providers" ∨ featureKey = "model-picker" ∨
        featureKey = "provider-setup" then
      config.hideCommercialFeatures.getD false ||
        ((config.proxySettings.bind ProxySettings.enabled).getD false)
    else
      false

/-- `isDistributionMode(settings)` from `src/lib/schemas.ts` (research
document), with the build flag passed explicitly. -/
def isDistributionMode (isDistributionBuild : Bool) (settings : UserSettings) : Bool :=
  isDistributionBuild ||
    ((settings.distributionMode.bind DistributionMode.hideCommercialFeatures) = some true)

/-! ## Telemetry (`src/lib/telemetry.ts`)

The PostHog backend is modelled as the list of calls the wrapper would
perform; `IS_DISTRIBUTION_BUILD` is the environment check
`process.env.DYAD_DISTRIBUTION_BUILD === "true"`. -/

/-- A process environment: variable name to optional value. -/
def EnvMap : Type := String → Option String

/-- `IS_DISTRIBUTION_BUILD` (`distribution_utils.ts` / `telemetry.ts`). -/
def IS_DISTRIBUTION_BUILD (env : EnvMap) : Bool :=
  env "DYAD_DISTRIBUTION_BUILD" = some "true"

/-- A call into the PostHog telemetry backend. -/
inductive TelemetryCall where
  | capture (eventName : String) (properties : Option (List (String × String)))
  | captureException (message : String)
  deriving Repr, DecidableEq

/-- `captureEvent` from `telemetry.ts`: returns the backend calls performed. -/
def captureEvent (isDistributionBuild : Bool) (eventName : String)
    (properties : Option (List (String × String))) : List TelemetryCall :=
  if isDistributionBuild then []
  else [TelemetryCall.capture eventName properties]

/-- `captureException` from `telemetry.ts`. -/
def captureException (isDistributionBuild : Bool) (message : String) :
    List TelemetryCall :=
  if isDistributionBuild then []
  else [TelemetryCall.captureException message]

/-- `isTelemetryEnabled` from `telemetry.ts`. -/
def isTelemetryEnabled (isDistributionBuild : Bool) : Bool :=
  !isDistributionBuild

/-! ## Vibeathon API client (`src/src/ipc/utils/distribution_utils.ts`)

`fetchFallbackApiKeys` is embedded as a function of the HTTP response it
receives from `GET /user/ai-keys`.  The response body is modelled as the
parsed JSON when parsing succeeds (`none` = the body is not valid JSON). -/

/-- The fields of a parsed `/user/ai-keys` response body that the client
inspects.  `none` = the JSON object lacks the field. -/
structure AiKeysBody where
  message : Option String
  expiration : Option String
  openai : Option String
  anthropic : Option String
  google : Option String
  xai : Option String
  deriving Repr, DecidableEq

/-- An HTTP response as observed by the client: `ok` status flag,
`statusText`, and the parsed JSON body (`none` when `response.json()`
rejects). -/
structure HttpResponse where
  ok : Bool
  statusText : String
  body : Option AiKeysBody
  deriving Repr, DecidableEq

/-- `VibeathonApiKeysResponse` as returned by `fetchFallbackApiKeys`:
per-provider credentials plus the (validated, truthy) expiration string. -/
structure VibeathonApiKeysResponse where
  openai : Option String
  anthropic : Option String
  google : Option String
  xai : Option String
  expiration : String
  deriving Repr, DecidableEq

/-- `fetchFallbackApiKeys` (`distribution_utils.ts` lines 37-69).  A thrown
`Error` is modelled as `Except.error` carrying the error message:
* `!response.ok`: throw, preferring a truthy `errorData.message` from the
  parsed body over the default message;
* ok but the body is not valid JSON: `response.json()` rejects;
* ok but `!data.expiration` (absent or empty string): throw
  "Invalid response: missing expiration date";
* otherwise return the parsed keys. -/
def fetchFallbackApiKeys (response : HttpResponse) :
    Except String VibeathonApiKeysResponse :=
  if !response.ok then
    let defaultMsg := "Failed to fetch API keys: " ++ response.statusText
    match response.body with
    | some errorData =>
        if strTruthy errorData.message then
          Except.error (errorData.message.getD "")
        else
          Except.error defaultMsg
    | none => Except.error defaultMsg
  else
    match response.body with
    | none => Except.error "Unexpected end of JSON input"
    | some data =>
        if strTruthy data.expiration then
          Except.ok
            { openai := data.openai, anthropic := data.anthropic,
              google := data.google, xai := data.xai,
              expiration := data.expiration.getD "" }
        else
          Except.error "Invalid response: missing expiration date"

/-- `validateVibeathonApiKey` (`distribution_utils.ts` lines 77-85):
`try { await fetchFallbackApiKeys(key); return true } catch { return false }`,
as a function of the response the inner call observes. -/
def validateVibeathonApiKey (response : HttpResponse) : Bool :=
  match fetchFallbackApiKeys response with
  | Except.ok _ => true
  | Except.error _ => false

/-! ## Request transformation (`transformToOpenAIFormat`, lines 129-159)

The produced request object is modelled as an association list from field
name to value; `Object.fromEntries(...filter(v !== undefined))` drops the
fields whose computed value is `undefined`. -/

/-- A chat message `{role, content}`. -/
structure ChatMessage where
  role : String
  content : String
  deriving Repr, DecidableEq

/-- The Vibeathon metadata object attached to every transformed request. -/
structure RequestMetadata where
  original_provider : String
  request_id : String
  user_agent : String
  timestamp : String
  deriving Repr, DecidableEq

/-- A JSON value occurring as a field of the transformed request. -/
inductive FieldValue where
  | str (s : String)
  | num (q : ℚ)
  | bool (b : Bool)
  | messages (ms : List ChatMessage)
  | strList (ss : List String)
  | metadata (m : RequestMetadata)
  deriving Repr, DecidableEq

/-- The `options` argument of `transformToOpenAIFormat`: every field the
function reads, `none` = absent. -/
structure TransformOptions where
  stream : Option Bool
  maxTokens : Option ℚ
  max_tokens : Option ℚ
  temperature : Option ℚ
  top_p : Option ℚ
  frequency_penalty : Option ℚ
  presence_penalty : Option ℚ
  stop : Option (List String)
  originalProvider : Option String
  requestId : Option String
  deriving Repr, DecidableEq

/-- `inferProviderFromModel` (`distribution_utils.ts` lines 161-172). -/
def inferProviderFromModel (model : String) : String :=
  if model.startsWith "gpt-" || model.startsWith "o1-" then "openai"
  else if model.startsWith "claude-" then "anthropic"
  else if model.startsWith "gemini-" then "google"
  else if model.startsWith "grok-" then "xai"
  else "unknown"

/-- `transformToOpenAIFormat` (`distribution_utils.ts` lines 129-159),
parameterised over the wall clock ISO string and the freshly generated
request id (`generateRequestId()`).  JS operators are modelled exactly:
`options.stream ?? true`, `options.maxTokens || options.max_tokens`
(number truthiness), `options.temperature ?? 0.7`, string truthiness in
`options.originalProvider || inferProviderFromModel(model)` and
`options.requestId || generateRequestId()`.  The final
`Object.fromEntries(Object.entries(request).filter(([_, v]) => v !== undefined))`
is the `filterMap` dropping absent values. -/
def transformToOpenAIFormat (model : String) (messages : List ChatMessage)
    (options : TransformOptions) (nowIso freshRequestId : String) :
    List (String × FieldValue) :=
  let maxTokensValue : Option ℚ :=
    if numTruthy options.maxTokens then options.maxTokens else options.max_tokens
  let md : RequestMetadata :=
    { original_provider :=
        if strTruthy options.originalProvider then options.originalProvider.getD ""
        else inferProviderFromModel model,
      request_id :=
        if strTruthy options.requestId then options.requestId.getD ""
        else freshRequestId,
      user_agent := "Dyad/Distribution",
      timestamp := nowIso }
  let entries : List (String × Option FieldValue) :=
    [("model", some (FieldValue.str model)),
     ("messages", some (FieldValue.messages messages)),
     ("stream", some (FieldValue.bool (options.stream.getD true))),
     ("max_tokens", maxTokensValue.map FieldValue.num),
     ("temperature", some (FieldValue.num (options.temperature.getD (7/10)))),
     ("top_p", options.top_p.map FieldValue.num),
     ("frequency_penalty", options.frequency_penalty.map FieldValue.num),
     ("presence_penalty", options.presence_penalty.map FieldValue.num),
     ("stop", options.stop.map FieldValue.strList),
     ("metadata", some (FieldValue.metadata md))]
  entries.filterMap (fun e => e.2.map (fun fv => (e.1, fv)))

/-- The proxy wire shape of the spec:
`{model, messages, stream, max_tokens?, temperature?, metadata?}`. -/
def PROXY_WIRE_SHAPE : List String :=
  ["model", "messages", "stream", "max_tokens", "temperature", "metadata"]

/-! ## Proxy base-address resolution

Two resolutions exist in the repository.  `getEnvVar` (from
`read_env.ts`, not part of this snapshot) is modelled from the spec: the
URL override is "resolved once at process start" from the process
environment, so `getEnvVar(name)` is the environment lookup. -/

namespace DistributionUtils

/-- `VIBEATHON_API_BASE` (`distribution_utils.ts` lines 17-20):
`getEnvVar('DYAD_DISTRIBUTION_PROXY_URL') || (NODE_ENV === 'development' ?
'http://app.vibeathon.test/api/v1' : 'https://app.vibeathon.us/api/v1')`. -/
def VIBEATHON_API_BASE (env : EnvMap) : String :=
  if strTruthy (env "DYAD_DISTRIBUTION_PROXY_URL") then
    (env "DYAD_DISTRIBUTION_PROXY_URL").getD ""
  else if env "NODE_ENV" = some "development" then
    "http://app.vibeathon.test/api/v1"
  else
    "https://app.vibeathon.us/api/v1"

/-- `getVibeathonProxyUrl` (`distribution_utils.ts` lines 245-247): returns
the module constant. -/
def getVibeathonProxyUrl (env : EnvMap) : String :=
  VIBEATHON_API_BASE env

end DistributionUtils

namespace SettingsModule

/-- `getVibeathonProxyUrl` from the unnamed settings module
(`src/unnamed/part_006` lines 226-238): the env override takes precedence;
the development default uses HTTPS. -/
def getVibeathonProxyUrl (env : EnvMap) : String :=
  if strTruthy (env "DYAD_DISTRIBUTION_PROXY_URL") then
    (env "DYAD_DISTRIBUTION_PROXY_URL").getD ""
  else if env "NODE_ENV" = some "development" then
    "https://app.vibeathon.test/api/v1"
  else
    "https://app.vibeathon.us/api/v1"

end SettingsModule

/-! ## Retry logic (`VibeathonRetryManager`, plan
`2025-09-23-vibeathon-proxy-routing.md`, Phase 4)

The operation under retry is modelled as a function from the (1-based)
attempt number to that attempt's outcome; the trace records the final
result, the number of attempts performed and the backoff delays slept
(in milliseconds, in order). -/

/-- `VibeathonRetryManager.MAX_RETRIES`. -/
def MAX_RETRIES : Nat := 10

/-- `VibeathonRetryManager.BASE_DELAY` (1 second, in ms). -/
def BASE_DELAY : Nat := 1000

/-- An error thrown by one proxy attempt.  `status` is the HTTP status when
the failure is an HTTP error (`none` for network errors / timeouts). -/
structure VibeathonFailure where
  message : String
  status : Option Nat
  deriving Repr, DecidableEq

/-- The spec's failure classification (§7): network errors, timeouts and
5xx responses are retryable; anything else (401/invalid credential,
malformed request) is not.  `VibeathonRetryManager` itself never consults
this classification. -/
def isRetryableFailure (e : VibeathonFailure) : Bool :=
  match e.status with
  | none => true
  | some s => decide (500 ≤ s ∧ s < 600)

/-- `VibeathonProxyError`: the error thrown after exhausting all retries,
wrapping the last attempt's error. -/
structure VibeathonProxyError where
  message : String
  originalError : VibeathonFailure
  deriving Repr, DecidableEq

deriving instance DecidableEq for Except

/-- The observable trace of one `executeWithRetry` run. -/
structure RetryTrace (α : Type) where
  result : Except VibeathonProxyError α
  attemptsMade : Nat
  delays : List Nat
  deriving Repr, DecidableEq

/-- The loop body of `VibeathonRetryManager.executeWithRetry`:
`goRetry op attempt rem` runs attempts `attempt, attempt+1, ...` with `rem`
attempts still allowed.  On success it returns immediately; on failure with
further attempts allowed it sleeps `BASE_DELAY * 2^(attempt-1)` ms and
continues; on failure at the last attempt it throws `VibeathonProxyError`.
`rem = 0` cannot be reached from `executeWithRetry`. -/
def goRetry (op : Nat → Except VibeathonFailure α) :
    (attempt rem : Nat) → RetryTrace α
  | attempt, 0 =>
      { result := Except.error
          { message := "Failed after " ++ toString MAX_RETRIES ++ " attempts: ",
            originalError := { message := "", status := none } },
        attemptsMade := attempt - 1, delays := [] }
  | attempt, 1 =>
      match op attempt with
      | Except.ok v => { result := Except.ok v, attemptsMade := attempt, delays := [] }
      | Except.error e =>
          { result := Except.error
              { message := "Failed after " ++ toString MAX_RETRIES ++
                  " attempts: " ++ e.message,
                originalError := e },
            attemptsMade := attempt, delays := [] }
  | attempt, rem + 2 =>
      match op attempt with
      | Except.ok v => { result := Except.ok v, attemptsMade := attempt, delays := [] }
      | Except.error _ =>
          let t := goRetry op (attempt + 1) (rem + 1)
          { t with delays := BASE_DELAY * 2 ^ (attempt - 1) :: t.delays }

/-- `VibeathonRetryManager.executeWithRetry` (plan, Phase 4):
`for (attempt = 1; attempt <= MAX_RETRIES; attempt++)`. -/
def executeWithRetry (op : Nat → Except VibeathonFailure α) : RetryTrace α :=
  goRetry op 1 MAX_RETRIES

/-! ## Proxy failure handling (`getModelClient`, plan Phase 4)

The distribution branch of `getModelClient` is embedded as a function of
the settings read, the per-attempt proxy outcome, and the wall clock; it
returns what the call produces, the settings the store holds afterwards,
and the `FailedRequestRecord`s written (request logging is Phase 5 and is
not implemented, so this list is always empty in the embedded code). -/

/-- A failure-ledger record (spec §3).  The embedded code never constructs
one. -/
structure FailedRequestRecord where
  requestId : String
  errorSummary : String
  deriving Repr, DecidableEq

/-- What the distribution branch of `getModelClient` produces for the
caller. -/
inductive GetModelClientResult where
  /-- the proxy client, after `executeWithRetry` succeeded -/
  | proxyClient (attemptsMade : Nat)
  /-- `throw new ProxyFailureRequiresUserAction(message)` -/
  | thrownProxyFailure (message : String)
  /-- the branch guard failed: fall through to the standard client logic -/
  | standardFlow
  deriving Repr, DecidableEq

/-- `markProxyFailed` (plan, Phase 4): read-modify-write setting
`lastFailure` to now and resetting `retryCount` to 0, via the object
spreads `{...settings.distributionMode, proxySettings:
{...settings.distributionMode?.proxySettings, lastFailure, retryCount: 0}}`.
Spreading `undefined` contributes no fields. -/
def markProxyFailed (settings : UserSettings) (nowIso : String) : UserSettings :=
  let basePs : ProxySettings :=
    (settings.distributionMode.bind DistributionMode.proxySettings).getD
      { enabled := none, baseUrl := none, fallbackApiKeys := none,
        fallbackKeysExpiration := none, retryCount := none,
        lastFailure := none, useFallback := none }
  let baseDm : DistributionMode :=
    settings.distributionMode.getD
      { hideCommercialFeatures := none, hideProButtons := none,
        hideExternalIntegrations := none, hideNavigation := none,
        vibeathonApiKey := none, proxySettings := none }
  { settings with
    distributionMode := some
      { baseDm with
        proxySettings := some
          { basePs with lastFailure := some nowIso, retryCount := some 0 } } }

/-- The distribution branch of `getModelClient` (plan, Phase 4): when
`proxySettings.enabled` is truthy and `useFallback` is not, run
`executeWithRetry`; on success return the proxy client, on
`VibeathonProxyError` run `markProxyFailed` and throw
`ProxyFailureRequiresUserAction(error.message)`.  No
`FailedRequestRecord` is ever written. -/
def getModelClientDistribution (settings : UserSettings)
    (op : Nat → Except VibeathonFailure Unit) (nowIso : String) :
    GetModelClientResult × UserSettings × List FailedRequestRecord :=
  let ps := settings.distributionMode.bind DistributionMode.proxySettings
  let enabled := (ps.bind ProxySettings.enabled).getD false
  let useFallback := (ps.bind ProxySettings.useFallback).getD false
  if enabled && !useFallback then
    match (executeWithRetry op).result with
    | Except.ok _ =>
        (GetModelClientResult.proxyClient (executeWithRetry op).attemptsMade,
         settings, [])
    | Except.error pe =>
        (GetModelClientResult.thrownProxyFailure pe.message,
         markProxyFailed settings nowIso, [])
  else
    (GetModelClientResult.standardFlow, settings, [])

/-! ## `fetchVibeathonFallbackKeys` (`src/unnamed/part_006` lines 139-177)

Read-modify-write against the settings store, parameterised over the
response of the `fetchFallbackApiKeys` network call. -/

/-- `Object.entries(apiKeys).filter(([key]) => key !== 'expiration')`
converted to the `SecretSchema` map, in the field order of
`VibeathonApiKeysResponse` (only fields present in the parsed object are
enumerated). -/
def toFallbackApiKeys (apiKeys : VibeathonApiKeysResponse) :
    List (String × SecretSchema) :=
  ([("openai", apiKeys.openai), ("anthropic", apiKeys.anthropic),
    ("google", apiKeys.google), ("xai", apiKeys.xai)]).filterMap
    (fun e => e.2.map (fun k =>
      (e.1, { value := k, encryptionType := "electron-safe-storage" })))

/-- `fetchVibeathonFallbackKeys` (`part_006` lines 139-177):
* throw when `settings.distributionMode?.vibeathonApiKey?.value` is falsy;
* call `fetchFallbackApiKeys` (its thrown error propagates);
* write back `distributionMode` with defaults materialised by
  `?? false` / `?? []` / `?? 0`, the spread of the old object restoring
  every present field, and `proxySettings` rebuilt the same way with
  `fallbackApiKeys` and `fallbackKeysExpiration` overriding. -/
def fetchVibeathonFallbackKeys (settings : UserSettings)
    (response : HttpResponse) : Except String UserSettings :=
  let vibeathonApiKey :=
    (settings.distributionMode.bind DistributionMode.vibeathonApiKey).map
      SecretSchema.value
  if !strTruthy vibeathonApiKey then
    Except.error "Vibeathon API key not configured"
  else
    match fetchFallbackApiKeys response with
    | Except.error e => Except.error e
    | Except.ok apiKeys =>
        let dm : DistributionMode :=
          (settings.distributionMode).getD
            { hideCommercialFeatures := none, hideProButtons := none,
              hideExternalIntegrations := none, hideNavigation := none,
              vibeathonApiKey := none, proxySettings := none }
        let ps : ProxySettings :=
          (dm.proxySettings).getD
            { enabled := none, baseUrl := none, fallbackApiKeys := none,
              fallbackKeysExpiration := none, retryCount := none,
              lastFailure := none, useFallback := none }
        let newPs : ProxySettings :=
          { enabled := some (ps.enabled.getD false),
            baseUrl := ps.baseUrl,
            fallbackApiKeys := some (toFallbackApiKeys apiKeys),
            fallbackKeysExpiration := some apiKeys.expiration,
            retryCount := some (ps.retryCount.getD 0),
            lastFailure := ps.lastFailure,
            useFallback := some (ps.useFallback.getD false) }
        let newDm : DistributionMode :=
          { hideCommercialFeatures := some (dm.hideCommercialFeatures.getD false),
            hideProButtons := some (dm.hideProButtons.getD false),
            hideExternalIntegrations := some (dm.hideExternalIntegrations.getD false),
            hideNavigation := some (dm.hideNavigation.getD []),
            vibeathonApiKey := dm.vibeathonApiKey,
            proxySettings := some newPs }
        Except.ok { settings with distributionMode := some newDm }

/-! ## Claim theorems -/

/-- C3: the feature visibility gate `shouldHideFeature` is a pure,
side-effect-free function: its result is fully determined by the
`distributionMode` section of the settings value it is given (it reads no
other settings field and no hidden mutable state), so any two calls with
the same settings value and feature key return the same boolean. -/
theorem shouldHideFeature_pure (s s' : UserSettings) (k : String)
    (h : s.distributionMode = s'.distributionMode) :
    shouldHideFeature s k = shouldHideFeature s' k := by
  unfold shouldHideFeature
  rw [h]

/-- Witness for C3: two settings values differing in every field other than
`distributionMode` give the same verdict for `model-picker`. -/
theorem shouldHideFeature_pure_witness :
    shouldHideFeature
      { distributionMode := some
          { hideCommercialFeatures := some true, hideProButtons := none,
            hideExternalIntegrations := none, hideNavigation := none,
            vibeathonApiKey := none, proxySettings := none },
        selectedChatMode := "build", telemetryConsent := "opted_in" }
      "model-picker" =
    shouldHideFeature
      { distributionMode := some
          { hideCommercialFeatures := some true, hideProButtons := none,
            hideExternalIntegrations := none, hideNavigation := none,
            vibeathonApiKey := none, proxySettings := none },
        selectedChatMode := "ask", telemetryConsent := "opted_out" }
      "model-picker" :=
  shouldHideFeature_pure _ _ "model-picker" rfl

/-- C10: `shouldHideFeature` returns `false` for every feature key when
`settings.distributionMode` is undefined, and returns `false` for every
key outside the enumerated `DISTRIBUTION_FEATURE_KEYS` set regardless of
the `distributionMode` configuration. -/
theorem shouldHideFeature_defaults (s : UserSettings) (k : String) :
    (s.distributionMode = none → shouldHideFeature s k = false) ∧
    (k ∉ DISTRIBUTION_FEATURE_KEYS → shouldHideFeature s k = false) := by
  constructor
  · intro h
    unfold shouldHideFeature
    rw [h]
  · intro hk
    simp only [DISTRIBUTION_FEATURE_KEYS, List.mem_cons,
      List.not_mem_nil, or_false, not_or] at hk
    obtain ⟨h1, h2, h3, h4, h5, h6, h7, h8, h9⟩ := hk
    unfold shouldHideFeature
    cases s.distributionMode with
    | none => rfl
    | some config => simp [h1, h2, h3, h4, h5, h6, h7, h8, h9]

/-- Witness for C10: undefined `distributionMode` hides nothing, and an
unknown key is never hidden even under a fully restrictive configuration. -/
theorem shouldHideFeature_defaults_witness :
    shouldHideFeature
      { distributionMode := none, selectedChatMode := "build",
        telemetryConsent := "unset" } "pro-banner" = false ∧
    shouldHideFeature
      { distributionMode := some
          { hideCommercialFeatures := some true, hideProButtons := some true,
            hideExternalIntegrations := some true,
            hideNavigation := some ["hub", "library"],
            vibeathonApiKey := none, proxySettings := none },
        selectedChatMode := "build", telemetryConsent := "unset" }
      "unknown-feature" = false :=
  ⟨(shouldHideFeature_defaults _ "pro-banner").1 rfl,
   (shouldHideFeature_defaults _ "unknown-feature").2 (by decide)⟩

/-- C8: `validateVibeathonApiKey` is total (the `try`/`catch` swallows every
error) and returns `true` exactly when `fetchFallbackApiKeys` completes
without throwing, `false` exactly when it throws for any reason. -/
theorem validateVibeathonApiKey_total (resp : HttpResponse) :
    (validateVibeathonApiKey resp = true ↔
      ∃ v, fetchFallbackApiKeys resp = Except.ok v) ∧
    (validateVibeathonApiKey resp = false ↔
      ∃ e, fetchFallbackApiKeys resp = Except.error e) := by
  rcases h : fetchFallbackApiKeys resp with e | v
  · simp [validateVibeathonApiKey, h]
  · simp [validateVibeathonApiKey, h]

/-- C9: in a distribution build (`DYAD_DISTRIBUTION_BUILD === "true"`),
`captureEvent` and `captureException` perform no telemetry backend call for
any event name, property record or error, and `isTelemetryEnabled()`
returns `false`. -/
theorem telemetry_disabled_in_distribution (env : EnvMap) (eventName : String)
    (properties : Option (List (String × String))) (message : String)
    (h : IS_DISTRIBUTION_BUILD env = true) :
    captureEvent (IS_DISTRIBUTION_BUILD env) eventName properties = [] ∧
    captureException (IS_DISTRIBUTION_BUILD env) message = [] ∧
    isTelemetryEnabled (IS_DISTRIBUTION_BUILD env) = false := by
  rw [h]
  exact ⟨rfl, rfl, rfl⟩

/-- Witness for C9: the concrete distribution-build environment emits
nothing. -/
theorem telemetry_disabled_in_distribution_witness :
    captureEvent
      (IS_DISTRIBUTION_BUILD
        (fun n => if n = "DYAD_DISTRIBUTION_BUILD" then some "true" else none))
      "chat:submit" (some [("model", "gpt-4")]) = [] ∧
    captureException
      (IS_DISTRIBUTION_BUILD
        (fun n => if n = "DYAD_DISTRIBUTION_BUILD" then some "true" else none))
      "boom" = [] ∧
    isTelemetryEnabled
      (IS_DISTRIBUTION_BUILD
        (fun n => if n = "DYAD_DISTRIBUTION_BUILD" then some "true" else none)) =
      false :=
  telemetry_disabled_in_distribution _ "chat:submit" (some [("model", "gpt-4")])
    "boom" (by decide)

/-- C4 (amended): `fetchFallbackApiKeys` returns the parsed provider
credentials together with the expiration timestamp exactly when the HTTP
response is ok and its parsed body carries a truthy (present and
non-empty) `expiration` field; in every other case — response not ok,
unparsable body, or absent/empty `expiration` — it throws.  (The claim as
stated fails only on the empty-string case: JavaScript's
`!data.expiration` also rejects a present-but-empty field.) -/
theorem fetchFallbackApiKeys_ok_iff (resp : HttpResponse) :
    ((∃ v, fetchFallbackApiKeys resp = Except.ok v) ↔
      (resp.ok = true ∧ ∃ b, resp.body = some b ∧ strTruthy b.expiration = true)) ∧
    ((∃ e, fetchFallbackApiKeys resp = Except.error e) ↔
      ¬(resp.ok = true ∧ ∃ b, resp.body = some b ∧ strTruthy b.expiration = true)) := by
  rcases resp with ⟨ok, st, body⟩
  cases ok
  · cases body with
    | none => simp [fetchFallbackApiKeys]
    | some b =>
        by_cases hm : strTruthy b.message = true <;>
          simp [fetchFallbackApiKeys, hm]
  · cases body with
    | none => simp [fetchFallbackApiKeys]
    | some b =>
        by_cases hb : strTruthy b.expiration = true <;>
          simp [fetchFallbackApiKeys, hb]

/-- Counterexample to C4 as stated: an ok response whose body *contains*
an `expiration` field (the empty string) still makes
`fetchFallbackApiKeys` throw, because `!data.expiration` is a JavaScript
truthiness check. -/
theorem fetchFallbackApiKeys_empty_expiration :
    (({ ok := true, statusText := "OK",
        body := some
          { message := none, expiration := some "", openai := some "sk-openai",
            anthropic := none, google := none, xai := none } } :
        HttpResponse).ok = true) ∧
    (({ ok := true, statusText := "OK",
        body := some
          { message := none, expiration := some "", openai := some "sk-openai",
            anthropic := none, google := none, xai := none } } :
        HttpResponse).body.bind AiKeysBody.expiration).isSome = true ∧
    fetchFallbackApiKeys
      { ok := true, statusText := "OK",
        body := some
          { message := none, expiration := some "", openai := some "sk-openai",
            anthropic := none, google := none, xai := none } } =
      Except.error "Invalid response: missing expiration date" := by
  decide

/-- C7 (amended): the two resolutions of the proxy base address agree for
every environment in which the `DYAD_DISTRIBUTION_PROXY_URL` override is
truthy or `NODE_ENV` is not `development`; they differ exactly in the
development-default case, where `distribution_utils.ts` uses `http://` and
the settings module uses `https://`. -/
theorem getVibeathonProxyUrl_agree (env : EnvMap)
    (h : strTruthy (env "DYAD_DISTRIBUTION_PROXY_URL") = true ∨
      ¬(env "NODE_ENV" = some "development")) :
    DistributionUtils.getVibeathonProxyUrl env =
      SettingsModule.getVibeathonProxyUrl env := by
  unfold DistributionUtils.getVibeathonProxyUrl DistributionUtils.VIBEATHON_API_BASE
    SettingsModule.getVibeathonProxyUrl
  rcases h with h | h
  · simp [h]
  · by_cases ht : strTruthy (env "DYAD_DISTRIBUTION_PROXY_URL") = true <;>
      simp [ht, h]

/-- Witness for C7 (amended): with the override set, both resolutions
return the override. -/
theorem getVibeathonProxyUrl_agree_witness :
    DistributionUtils.getVibeathonProxyUrl
      (fun n => if n = "DYAD_DISTRIBUTION_PROXY_URL"
        then some "https://proxy.example/api/v1" else none) =
    SettingsModule.getVibeathonProxyUrl
      (fun n => if n = "DYAD_DISTRIBUTION_PROXY_URL"
        then some "https://proxy.example/api/v1" else none) :=
  getVibeathonProxyUrl_agree _ (Or.inl (by decide))

/-- Counterexample to C7 as stated: with no override and
`NODE_ENV=development`, `distribution_utils.ts` resolves to the `http://`
development URL while the settings module resolves to `https://`. -/
theorem getVibeathonProxyUrl_development_mismatch :
    DistributionUtils.getVibeathonProxyUrl
      (fun n => if n = "NODE_ENV" then some "development" else none) =
      "http://app.vibeathon.test/api/v1" ∧
    SettingsModule.getVibeathonProxyUrl
      (fun n => if n = "NODE_ENV" then some "development" else none) =
      "https://app.vibeathon.test/api/v1" ∧
    DistributionUtils.getVibeathonProxyUrl
      (fun n => if n = "NODE_ENV" then some "development" else none) ≠
    SettingsModule.getVibeathonProxyUrl
      (fun n => if n = "NODE_ENV" then some "development" else none) := by
  decide

/-- C5 (amended): the request produced by `transformToOpenAIFormat` has
exactly the fields `model`, `messages`, `stream`, `temperature`,
`metadata` (always present), plus `max_tokens`, `top_p`,
`frequency_penalty`, `presence_penalty` and `stop` exactly when their
computed value is defined — so every field whose computed value is
undefined is absent, but the output is not limited to the proxy wire
shape `{model, messages, stream, max_tokens?, temperature?, metadata?}`. -/
theorem transformToOpenAIFormat_fields (model : String)
    (messages : List ChatMessage) (options : TransformOptions)
    (nowIso freshRequestId : String) :
    (transformToOpenAIFormat model messages options nowIso freshRequestId).map
        Prod.fst =
      ["model", "messages", "stream"] ++
      (if (if numTruthy options.maxTokens then options.maxTokens
            else options.max_tokens).isSome then ["max_tokens"] else []) ++
      ["temperature"] ++
      (if options.top_p.isSome then ["top_p"] else []) ++
      (if options.frequency_penalty.isSome then ["frequency_penalty"] else []) ++
      (if options.presence_penalty.isSome then ["presence_penalty"] else []) ++
      (if options.stop.isSome then ["stop"] else []) ++
      ["metadata"] := by
  rcases h1 : (if numTruthy options.maxTokens then options.maxTokens
    else options.max_tokens) with _ | q1 <;>
  rcases h2 : options.top_p with _ | q2 <;>
  rcases h3 : options.frequency_penalty with _ | q3 <;>
  rcases h4 : options.presence_penalty with _ | q4 <;>
  rcases h5 : options.stop with _ | l5 <;>
  simp [transformToOpenAIFormat, h1, h2, h3, h4, h5]

/-- Counterexample to C5 as stated: an options object with `top_p` defined
produces a request carrying a `top_p` field, which lies outside the
claimed proxy wire shape. -/
theorem transformToOpenAIFormat_top_p_outside_shape :
    "top_p" ∈
      (transformToOpenAIFormat "gpt-4" [{ role := "user", content := "hi" }]
        { stream := none, maxTokens := none, max_tokens := none,
          temperature := none, top_p := some (1/2), frequency_penalty := none,
          presence_penalty := none, stop := none, originalProvider := none,
          requestId := none }
        "2025-09-23T00:00:00Z" "req-1").map Prod.fst ∧
    "top_p" ∉ PROXY_WIRE_SHAPE := by
  decide

/-- Loop invariant of `goRetry`: starting at attempt `attempt` with `rem`
attempts allowed, the trace performs between 1 and `rem` attempts, sleeps
exactly the exponential delays between consecutive attempts, stops at the
first success, and throws only after consuming every allowed attempt. -/
theorem goRetry_spec {α : Type} (op : Nat → Except VibeathonFailure α) :
    ∀ rem attempt, 1 ≤ rem → 1 ≤ attempt →
      attempt ≤ (goRetry op attempt rem).attemptsMade ∧
      (goRetry op attempt rem).attemptsMade + 1 ≤ attempt + rem ∧
      (goRetry op attempt rem).delays =
        (List.range ((goRetry op attempt rem).attemptsMade - attempt)).map
          (fun i => BASE_DELAY * 2 ^ (attempt - 1 + i)) ∧
      (∀ i, attempt ≤ i → i < (goRetry op attempt rem).attemptsMade →
        ∃ e, op i = Except.error e) ∧
      (∀ v, (goRetry op attempt rem).result = Except.ok v ↔
        op (goRetry op attempt rem).attemptsMade = Except.ok v) ∧
      (∀ pe, (goRetry op attempt rem).result = Except.error pe →
        (goRetry op attempt rem).attemptsMade + 1 = attempt + rem ∧
        op (goRetry op attempt rem).attemptsMade =
          Except.error pe.originalError) := by
  intro rem
  induction rem with
  | zero => intro attempt h1 _; exact absurd h1 (by omega)
  | succ n ih =>
    intro attempt _ hatt
    cases n with
    | zero =>
      rcases hop : op attempt with e | v
      · have hred : goRetry op attempt (0 + 1) =
            { result := Except.error
                { message := "Failed after " ++ toString MAX_RETRIES ++
                    " attempts: " ++ e.message,
                  originalError := e },
              attemptsMade := attempt, delays := [] } := by
          simp [goRetry, hop]
        rw [hred]
        dsimp only
        refine ⟨le_refl _, by omega, by simp, ?_, ?_, ?_⟩
        · intro i hi1 hi2
          exact absurd hi2 (by omega)
        · intro w
          simp [hop]
        · intro pe hpe
          injection hpe with h
          subst h
          exact ⟨by omega, hop⟩
      · have hred : goRetry op attempt (0 + 1) =
            { result := Except.ok v, attemptsMade := attempt, delays := [] } := by
          simp [goRetry, hop]
        rw [hred]
        dsimp only
        refine ⟨le_refl _, by omega, by simp, ?_, ?_, ?_⟩
        · intro i hi1 hi2
          exact absurd hi2 (by omega)
        · intro w
          simp [hop]
        · intro pe hpe
          exact absurd hpe (by simp)
    | succ m =>
      rcases hop : op attempt with e | v
      · obtain ⟨hA1, hA2, hD, hF, hOk, hErr⟩ :=
          ih (attempt + 1) (by omega) (by omega)
        have hred : goRetry op attempt (m + 1 + 1) =
            { result := (goRetry op (attempt + 1) (m + 1)).result,
              attemptsMade := (goRetry op (attempt + 1) (m + 1)).attemptsMade,
              delays := BASE_DELAY * 2 ^ (attempt - 1) ::
                (goRetry op (attempt + 1) (m + 1)).delays } := by
          simp [goRetry, hop]
        rw [hred]
        dsimp only
        refine ⟨by omega, by omega, ?_, ?_, ?_, ?_⟩
        · have hk : (goRetry op (attempt + 1) (m + 1)).attemptsMade - attempt =
              ((goRetry op (attempt + 1) (m + 1)).attemptsMade - (attempt + 1)) + 1 := by
            omega
          rw [hk, List.range_succ_eq_map, List.map_cons, List.map_map]
          congr 1
          rw [hD]
          apply List.map_congr_left
          intro i _
          simp only [Function.comp_apply]
          have hx : attempt + 1 - 1 + i = attempt - 1 + (i + 1) := by omega
          rw [hx]
        · intro i hi1 hi2
          rcases Nat.eq_or_lt_of_le hi1 with heq | hlt
          · exact ⟨e, heq ▸ hop⟩
          · exact hF i hlt hi2
        · intro w
          exact hOk w
        · intro pe hpe
          obtain ⟨h1, h2⟩ := hErr pe hpe
          exact ⟨by omega, h2⟩
      · have hred : goRetry op attempt (m + 1 + 1) =
            { result := Except.ok v, attemptsMade := attempt, delays := [] } := by
          simp [goRetry, hop]
        rw [hred]
        dsimp only
        refine ⟨le_refl _, by omega, by simp, ?_, ?_, ?_⟩
        · intro i hi1 hi2
          exact absurd hi2 (by omega)
        · intro w
          simp [hop]
        · intro pe hpe
          exact absurd hpe (by simp)

/-- C1 (amended): `VibeathonRetryManager.executeWithRetry` retries *every*
failure — it never classifies errors, so 401/invalid-credential and
malformed-request failures are retried exactly like network, timeout and
5xx failures — for up to `MAX_RETRIES = 10` attempts, sleeping before
attempt N+1 a delay of exactly `BASE_DELAY × 2^(N−1)` milliseconds
(attempt starting at 1, with no maximum-delay cap), returning the first
success and throwing `VibeathonProxyError` only after all 10 attempts
fail. -/
theorem executeWithRetry_spec {α : Type} (op : Nat → Except VibeathonFailure α) :
    1 ≤ (executeWithRetry op).attemptsMade ∧
    (executeWithRetry op).attemptsMade ≤ MAX_RETRIES ∧
    (executeWithRetry op).delays =
      (List.range ((executeWithRetry op).attemptsMade - 1)).map
        (fun i => BASE_DELAY * 2 ^ i) ∧
    (∀ i, 1 ≤ i → i < (executeWithRetry op).attemptsMade →
      ∃ e, op i = Except.error e) ∧
    (∀ v, (executeWithRetry op).result = Except.ok v ↔
      op (executeWithRetry op).attemptsMade = Except.ok v) ∧
    (∀ pe, (executeWithRetry op).result = Except.error pe →
      (executeWithRetry op).attemptsMade = MAX_RETRIES ∧
      op MAX_RETRIES = Except.error pe.originalError) := by
  simp only [executeWithRetry]
  obtain ⟨hA1, hA2, hD, hF, hOk, hErr⟩ :=
    goRetry_spec op MAX_RETRIES 1 (by decide) (by decide)
  refine ⟨hA1, by omega, ?_, hF, hOk, ?_⟩
  · rw [hD]
    simp
  · intro pe hpe
    obtain ⟨h1, h2⟩ := hErr pe hpe
    have hA : (goRetry op 1 MAX_RETRIES).attemptsMade = MAX_RETRIES := by
      omega
    exact ⟨hA, hA ▸ h2⟩

/-- Witness for C1 (amended): an operation failing on attempts 1 and 2 and
succeeding on attempt 3 makes exactly 3 attempts, and the theorem's
failure clause applies at the concrete attempt 2. -/
theorem executeWithRetry_spec_witness :
    1 ≤ (executeWithRetry (fun i =>
      if i < 3 then Except.error
        { message := "connect ECONNREFUSED", status := none }
      else Except.ok ())).attemptsMade ∧
    ∃ e, (fun i =>
      if i < 3 then (Except.error
        { message := "connect ECONNREFUSED", status := none } :
          Except VibeathonFailure Unit)
      else Except.ok ()) 2 = Except.error e :=
  ⟨(executeWithRetry_spec _).1,
   (executeWithRetry_spec (fun i =>
      if i < 3 then Except.error
        { message := "connect ECONNREFUSED", status := none }
      else Except.ok ())).2.2.2.1 2 (by decide) (by decide)⟩

/-- Counterexample to C1 as stated: a 401 / invalid-credential failure is
non-retryable under the spec's classification, yet `executeWithRetry`
performs all 10 attempts against it, sleeping the full uncapped
exponential backoff sequence (up to 256 s) instead of aborting
immediately. -/
theorem executeWithRetry_retries_non_retryable :
    isRetryableFailure { message := "Unauthorized", status := some 401 } = false ∧
    (executeWithRetry (fun _ =>
      (Except.error { message := "Unauthorized", status := some 401 } :
        Except VibeathonFailure Unit))).attemptsMade = MAX_RETRIES ∧
    (executeWithRetry (fun _ =>
      (Except.error { message := "Unauthorized", status := some 401 } :
        Except VibeathonFailure Unit))).delays =
      [1000, 2000, 4000, 8000, 16000, 32000, 64000, 128000, 256000] := by
  decide

/-- Concrete distribution settings: proxy enabled, not in fallback mode,
with an `openai` fallback credential present. -/
def exampleDistributionSettings : UserSettings :=
  { distributionMode := some
      { hideCommercialFeatures := some true, hideProButtons := some true,
        hideExternalIntegrations := some true,
        hideNavigation := some ["hub", "library"],
        vibeathonApiKey := some
          { value := "vibe-key-1", encryptionType := "electron-safe-storage" },
        proxySettings := some
          { enabled := some true,
            baseUrl := some "https://app.vibeathon.us/api/v1",
            fallbackApiKeys := some
              [("openai",
                { value := "sk-openai-fallback",
                  encryptionType := "electron-safe-storage" })],
            fallbackKeysExpiration := none, retryCount := some 0,
            lastFailure := none, useFallback := some false } },
    selectedChatMode := "build", telemetryConsent := "opted_out" }

/-- A proxy operation that fails every attempt with a network error. -/
def alwaysNetworkError : Nat → Except VibeathonFailure Unit :=
  fun _ => Except.error { message := "connect ECONNREFUSED", status := none }

/-- C2 (amended): when the proxy path is enabled, fallback mode is off and
every attempt fails, the distribution branch of `getModelClient` exhausts
the retries and then: writes *no* `FailedRequestRecord` (request logging
is unimplemented), performs the `markProxyFailed` write — which sets
`lastFailure` to now, resets `retryCount` to 0 and leaves `useFallback`,
the fallback credentials and every other settings field unchanged (in
particular `useFallback` is *not* set to true and `consecutiveFailures`
does not exist) — and throws `ProxyFailureRequiresUserAction` with the
proxy error's message instead of returning a fallback-direct client,
regardless of whether a fallback credential exists. -/
theorem getModelClientDistribution_exhaustion (settings : UserSettings)
    (op : Nat → Except VibeathonFailure Unit) (nowIso : String)
    (henabled : ((settings.distributionMode.bind
      DistributionMode.proxySettings).bind ProxySettings.enabled).getD false =
      true)
    (huse : ((settings.distributionMode.bind
      DistributionMode.proxySettings).bind ProxySettings.useFallback).getD
      false = false)
    (hfail : ∀ i, 1 ≤ i → i ≤ MAX_RETRIES → ∃ e, op i = Except.error e) :
    ∃ pe ps2 dm2,
      (executeWithRetry op).result = Except.error pe ∧
      getModelClientDistribution settings op nowIso =
        (GetModelClientResult.thrownProxyFailure pe.message,
         markProxyFailed settings nowIso, []) ∧
      (markProxyFailed settings nowIso).distributionMode = some dm2 ∧
      dm2.proxySettings = some ps2 ∧
      ps2.lastFailure = some nowIso ∧
      ps2.retryCount = some 0 ∧
      ps2.useFallback = (settings.distributionMode.bind
        DistributionMode.proxySettings).bind ProxySettings.useFallback ∧
      ps2.enabled = (settings.distributionMode.bind
        DistributionMode.proxySettings).bind ProxySettings.enabled ∧
      ps2.baseUrl = (settings.distributionMode.bind
        DistributionMode.proxySettings).bind ProxySettings.baseUrl ∧
      ps2.fallbackApiKeys = (settings.distributionMode.bind
        DistributionMode.proxySettings).bind ProxySettings.fallbackApiKeys ∧
      ps2.fallbackKeysExpiration = (settings.distributionMode.bind
        DistributionMode.proxySettings).bind ProxySettings.fallbackKeysExpiration ∧
      dm2.hideCommercialFeatures =
        settings.distributionMode.bind DistributionMode.hideCommercialFeatures ∧
      dm2.hideProButtons =
        settings.distributionMode.bind DistributionMode.hideProButtons ∧
      dm2.hideExternalIntegrations =
        settings.distributionMode.bind DistributionMode.hideExternalIntegrations ∧
      dm2.hideNavigation =
        settings.distributionMode.bind DistributionMode.hideNavigation ∧
      dm2.vibeathonApiKey =
        settings.distributionMode.bind DistributionMode.vibeathonApiKey ∧
      (markProxyFailed settings nowIso).selectedChatMode =
        settings.selectedChatMode ∧
      (markProxyFailed settings nowIso).telemetryConsent =
        settings.telemetryConsent := by
  obtain ⟨hA1, hA2, _, _, hOk, _⟩ :=
    goRetry_spec op MAX_RETRIES 1 (by decide) (by decide)
  rcases hres : (executeWithRetry op).result with pe | v
  swap
  · exfalso
    rw [executeWithRetry] at hres
    obtain ⟨e, he⟩ :=
      hfail (goRetry op 1 MAX_RETRIES).attemptsMade (by omega) (by omega)
    rw [(hOk v).mp hres] at he
    cases he
  rcases hdm : settings.distributionMode with _ | dm
  · simp [hdm] at henabled
  rcases hps : dm.proxySettings with _ | ps
  · simp [hdm, hps] at henabled
  have hmark : markProxyFailed settings nowIso =
      { settings with
        distributionMode := some { dm with
          proxySettings := some { ps with
            lastFailure := some nowIso, retryCount := some 0 } } } := by
    unfold markProxyFailed
    simp only [hdm, hps, Option.some_bind, Option.getD_some]
  simp only [hdm, hps, Option.some_bind, Option.getD_some] at henabled huse
  refine ⟨pe,
    ({ ps with lastFailure := some nowIso, retryCount := some 0 } :
      ProxySettings),
    ({ dm with proxySettings := some { ps with
        lastFailure := some nowIso, retryCount := some 0 } } :
      DistributionMode),
    rfl, ?_, ?_, rfl, rfl, rfl, ?_, ?_, ?_, ?_, ?_,
    rfl, rfl, rfl, rfl, rfl, ?_, ?_⟩
  · unfold getModelClientDistribution
    simp only [hdm, hps, Option.some_bind, Option.getD_some, henabled, huse]
    rw [hres]
    rfl
  · rw [hmark]
  · simp [hdm, hps]
  · simp [hdm, hps]
  · simp [hdm, hps]
  · simp [hdm, hps]
  · simp [hdm, hps]
  · rw [hmark]
  · rw [hmark]

/-- Witness for C2 (amended), at the concrete settings with an `openai`
fallback credential and a proxy failing every attempt. -/
theorem getModelClientDistribution_exhaustion_witness :
    ∃ pe ps2 dm2,
      (executeWithRetry alwaysNetworkError).result = Except.error pe ∧
      getModelClientDistribution exampleDistributionSettings alwaysNetworkError
          "2025-09-23T12:00:00Z" =
        (GetModelClientResult.thrownProxyFailure pe.message,
         markProxyFailed exampleDistributionSettings "2025-09-23T12:00:00Z",
         []) ∧
      (markProxyFailed exampleDistributionSettings
        "2025-09-23T12:00:00Z").distributionMode = some dm2 ∧
      dm2.proxySettings = some ps2 ∧
      ps2.lastFailure = some "2025-09-23T12:00:00Z" ∧
      ps2.retryCount = some 0 ∧
      ps2.useFallback = (exampleDistributionSettings.distributionMode.bind
        DistributionMode.proxySettings).bind ProxySettings.useFallback ∧
      ps2.enabled = (exampleDistributionSettings.distributionMode.bind
        DistributionMode.proxySettings).bind ProxySettings.enabled ∧
      ps2.baseUrl = (exampleDistributionSettings.distributionMode.bind
        DistributionMode.proxySettings).bind ProxySettings.baseUrl ∧
      ps2.fallbackApiKeys = (exampleDistributionSettings.distributionMode.bind
        DistributionMode.proxySettings).bind ProxySettings.fallbackApiKeys ∧
      ps2.fallbackKeysExpiration =
        (exampleDistributionSettings.distributionMode.bind
          DistributionMode.proxySettings).bind
          ProxySettings.fallbackKeysExpiration ∧
      dm2.hideCommercialFeatures =
        exampleDistributionSettings.distributionMode.bind
          DistributionMode.hideCommercialFeatures ∧
      dm2.hideProButtons = exampleDistributionSettings.distributionMode.bind
        DistributionMode.hideProButtons ∧
      dm2.hideExternalIntegrations =
        exampleDistributionSettings.distributionMode.bind
          DistributionMode.hideExternalIntegrations ∧
      dm2.hideNavigation = exampleDistributionSettings.distributionMode.bind
        DistributionMode.hideNavigation ∧
      dm2.vibeathonApiKey = exampleDistributionSettings.distributionMode.bind
        DistributionMode.vibeathonApiKey ∧
      (markProxyFailed exampleDistributionSettings
        "2025-09-23T12:00:00Z").selectedChatMode =
        exampleDistributionSettings.selectedChatMode ∧
      (markProxyFailed exampleDistributionSettings
        "2025-09-23T12:00:00Z").telemetryConsent =
        exampleDistributionSettings.telemetryConsent :=
  getModelClientDistribution_exhaustion exampleDistributionSettings
    alwaysNetworkError "2025-09-23T12:00:00Z" (by decide) (by decide)
    (fun _ _ _ => ⟨{ message := "connect ECONNREFUSED", status := none }, rfl⟩)

/-- Counterexample to C2 as stated: with a fallback credential present for
`openai` and the proxy exhausting all 10 attempts, the code writes *zero*
`FailedRequestRecord`s (the claim demands exactly one), leaves
`useFallback` at `false` (the claim demands `true`), and throws
`ProxyFailureRequiresUserAction` instead of returning a fallback-direct
client. -/
theorem getModelClientDistribution_exhaustion_counterexample :
    ((exampleDistributionSettings.distributionMode.bind
      DistributionMode.proxySettings).bind
      ProxySettings.fallbackApiKeys).isSome = true ∧
    (getModelClientDistribution exampleDistributionSettings alwaysNetworkError
      "2025-09-23T12:00:00Z").2.2 = [] ∧
    ((getModelClientDistribution exampleDistributionSettings alwaysNetworkError
      "2025-09-23T12:00:00Z").2.1.distributionMode.bind
      DistributionMode.proxySettings).bind ProxySettings.useFallback =
      some false ∧
    (getModelClientDistribution exampleDistributionSettings alwaysNetworkError
      "2025-09-23T12:00:00Z").1 =
      GetModelClientResult.thrownProxyFailure
        "Failed after 10 attempts: connect ECONNREFUSED" := by
  decide

/-- C6 (amended): `fetchVibeathonFallbackKeys` performs a read-modify-write
that, besides overwriting `fallbackApiKeys` and `fallbackKeysExpiration`
with the fetched values, determines every other written field exactly from
the settings read, for *every* starting settings value on the success
path: each `distributionMode` flag and each defaulted `proxySettings`
field is written as `some (old value ?? schema default)` — so a present
field keeps its value and an absent optional field is materialised to its
default (`false`, `0`, `[]`), which is what the claim as stated misses —
while `vibeathonApiKey`, `baseUrl` and `lastFailure` are written back
unchanged (present or absent) and the unrelated top-level settings fields
are untouched. -/
theorem fetchVibeathonFallbackKeys_frame (settings : UserSettings)
    (resp : HttpResponse) (s : UserSettings)
    (h : fetchVibeathonFallbackKeys settings resp = Except.ok s) :
    ∃ dm dm2 ps2,
      settings.distributionMode = some dm ∧
      s.distributionMode = some dm2 ∧
      dm2.proxySettings = some ps2 ∧
      dm2.hideCommercialFeatures = some (dm.hideCommercialFeatures.getD false) ∧
      dm2.hideProButtons = some (dm.hideProButtons.getD false) ∧
      dm2.hideExternalIntegrations =
        some (dm.hideExternalIntegrations.getD false) ∧
      dm2.hideNavigation = some (dm.hideNavigation.getD []) ∧
      dm2.vibeathonApiKey = dm.vibeathonApiKey ∧
      ps2.enabled =
        some ((dm.proxySettings.bind ProxySettings.enabled).getD false) ∧
      ps2.baseUrl = dm.proxySettings.bind ProxySettings.baseUrl ∧
      ps2.retryCount =
        some ((dm.proxySettings.bind ProxySettings.retryCount).getD 0) ∧
      ps2.useFallback =
        some ((dm.proxySettings.bind ProxySettings.useFallback).getD false) ∧
      ps2.lastFailure = dm.proxySettings.bind ProxySettings.lastFailure ∧
      (∃ keys, fetchFallbackApiKeys resp = Except.ok keys ∧
        ps2.fallbackApiKeys = some (toFallbackApiKeys keys) ∧
        ps2.fallbackKeysExpiration = some keys.expiration) ∧
      s.selectedChatMode = settings.selectedChatMode ∧
      s.telemetryConsent = settings.telemetryConsent := by
  rcases hdm : settings.distributionMode with _ | dm
  · exfalso
    unfold fetchVibeathonFallbackKeys at h
    rw [hdm] at h
    simp [strTruthy] at h
  · unfold fetchVibeathonFallbackKeys at h
    rw [hdm] at h
    simp only [Option.some_bind, Option.getD_some] at h
    split at h
    · exact absurd h (by simp)
    · rcases hk : fetchFallbackApiKeys resp with e | keys
      · rw [hk] at h
        exact absurd h (by simp)
      · rw [hk] at h
        injection h with h'
        subst h'
        refine ⟨dm, _, _, rfl, rfl, rfl, rfl, rfl, rfl, rfl, rfl,
          ?_, ?_, ?_, ?_, ?_, ⟨keys, rfl, rfl, rfl⟩, rfl, rfl⟩
        all_goals rcases dm.proxySettings with _ | ps0
        all_goals rfl


/-- A successful `/user/ai-keys` response carrying two provider keys and an
expiration. -/
def exampleOkResponse : HttpResponse :=
  { ok := true, statusText := "OK",
    body := some
      { message := none, expiration := some "2025-12-31T00:00:00Z",
        openai := some "sk-openai-u1", anthropic := some "sk-ant-u1",
        google := none, xai := none } }

/-- The settings written back by `fetchVibeathonFallbackKeys` for
`exampleDistributionSettings` and `exampleOkResponse`. -/
def exampleFetchResult : UserSettings :=
  { distributionMode := some
      { hideCommercialFeatures := some true, hideProButtons := some true,
        hideExternalIntegrations := some true,
        hideNavigation := some ["hub", "library"],
        vibeathonApiKey := some
          { value := "vibe-key-1", encryptionType := "electron-safe-storage" },
        proxySettings := some
          { enabled := some true,
            baseUrl := some "https://app.vibeathon.us/api/v1",
            fallbackApiKeys := some
              [("openai",
                { value := "sk-openai-u1",
                  encryptionType := "electron-safe-storage" }),
               ("anthropic",
                { value := "sk-ant-u1",
                  encryptionType := "electron-safe-storage" })],
            fallbackKeysExpiration := some "2025-12-31T00:00:00Z",
            retryCount := some 0, lastFailure := none,
            useFallback := some false } },
    selectedChatMode := "build", telemetryConsent := "opted_out" }

/-- Witness for C6 (amended): the per-field characterisation applied at the
concrete settings and response. -/
theorem fetchVibeathonFallbackKeys_frame_witness :
    ∃ dm dm2 ps2,
      exampleDistributionSettings.distributionMode = some dm ∧
      exampleFetchResult.distributionMode = some dm2 ∧
      dm2.proxySettings = some ps2 ∧
      dm2.hideCommercialFeatures = some (dm.hideCommercialFeatures.getD false) ∧
      dm2.hideProButtons = some (dm.hideProButtons.getD false) ∧
      dm2.hideExternalIntegrations =
        some (dm.hideExternalIntegrations.getD false) ∧
      dm2.hideNavigation = some (dm.hideNavigation.getD []) ∧
      dm2.vibeathonApiKey = dm.vibeathonApiKey ∧
      ps2.enabled =
        some ((dm.proxySettings.bind ProxySettings.enabled).getD false) ∧
      ps2.baseUrl = dm.proxySettings.bind ProxySettings.baseUrl ∧
      ps2.retryCount =
        some ((dm.proxySettings.bind ProxySettings.retryCount).getD 0) ∧
      ps2.useFallback =
        some ((dm.proxySettings.bind ProxySettings.useFallback).getD false) ∧
      ps2.lastFailure = dm.proxySettings.bind ProxySettings.lastFailure ∧
      (∃ keys, fetchFallbackApiKeys exampleOkResponse = Except.ok keys ∧
        ps2.fallbackApiKeys = some (toFallbackApiKeys keys) ∧
        ps2.fallbackKeysExpiration = some keys.expiration) ∧
      exampleFetchResult.selectedChatMode =
        exampleDistributionSettings.selectedChatMode ∧
      exampleFetchResult.telemetryConsent =
        exampleDistributionSettings.telemetryConsent :=
  fetchVibeathonFallbackKeys_frame exampleDistributionSettings
    exampleOkResponse exampleFetchResult (by decide)

/-- Distribution settings whose `proxySettings` section is absent
entirely. -/
def settingsNoProxySection : UserSettings :=
  { distributionMode := some
      { hideCommercialFeatures := some true, hideProButtons := some true,
        hideExternalIntegrations := some true, hideNavigation := some [],
        vibeathonApiKey := some
          { value := "vibe-key-1", encryptionType := "electron-safe-storage" },
        proxySettings := none },
    selectedChatMode := "build", telemetryConsent := "unset" }

/-- The settings written back by `fetchVibeathonFallbackKeys` for
`settingsNoProxySection` and `exampleOkResponse`: note
`enabled`/`retryCount`/`useFallback` materialised to their defaults. -/
def settingsNoProxyAfter : UserSettings :=
  { distributionMode := some
      { hideCommercialFeatures := some true, hideProButtons := some true,
        hideExternalIntegrations := some true, hideNavigation := some [],
        vibeathonApiKey := some
          { value := "vibe-key-1", encryptionType := "electron-safe-storage" },
        proxySettings := some
          { enabled := some false, baseUrl := none,
            fallbackApiKeys := some
              [("openai",
                { value := "sk-openai-u1",
                  encryptionType := "electron-safe-storage" }),
               ("anthropic",
                { value := "sk-ant-u1",
                  encryptionType := "electron-safe-storage" })],
            fallbackKeysExpiration := some "2025-12-31T00:00:00Z",
            retryCount := some 0, lastFailure := none,
            useFallback := some false } },
    selectedChatMode := "build", telemetryConsent := "unset" }

/-- Counterexample to C6 as stated: when `proxySettings` is absent in the
settings read, the write does not leave `enabled` (and `retryCount`,
`useFallback`) with the value that was read — `enabled` goes from
undefined to `false` — so not only `fallbackApiKeys` and
`fallbackKeysExpiration` change. -/
theorem fetchVibeathonFallbackKeys_materialises_defaults :
    fetchVibeathonFallbackKeys settingsNoProxySection exampleOkResponse =
      Except.ok settingsNoProxyAfter ∧
    (settingsNoProxySection.distributionMode.bind
      DistributionMode.proxySettings).bind ProxySettings.enabled = none ∧
    (settingsNoProxyAfter.distributionMode.bind
      DistributionMode.proxySettings).bind ProxySettings.enabled =
      some false := by
  decide
